import Mathlib

/-!
Verification of the virtio-GPU bring-up and protocol-codec layer
(`src/risc_v/src/gpu.rs`): the device-negotiation sequence performed by
`setup_gpu_device`, the 8-slot device registry, the queue page-count
computation and the `CtrlType` wire-tag enumeration.

The stateful register traffic of `setup_gpu_device` is embedded as a pure
function from the device-visible inputs (the value returned by each register
read, and the address returned by the page allocator) to the boolean result,
the ordered trace of MMIO accesses and allocations, and the updated registry.
Machine integers are modelled as `Nat` with explicit `% 2^32` where the
source truncates (the `as u32` pointer cast) and explicit `% 2^64` where a
`usize` subtraction can wrap (the slot-index derivation).
-/

/-- The MMIO registers addressed by `gpu.rs` through `MmioOffsets` (the
numeric offsets live in the external `virtio` module; only the register
identity matters here). -/
inductive MmioOffsets where
  | Status
  | HostFeatures
  | GuestFeatures
  | QueueNumMax
  | QueueNum
  | QueueSel
  | GuestPageSize
  | QueuePfn
deriving DecidableEq, Repr

namespace StatusField

/-- Modelled from the spec: the `Acknowledge` status bit, a distinct single
bit of the `StatusField` type from the external `virtio` module (value per
the virtio MMIO status-bit convention the spec's §6 fixes externally). -/
def Acknowledge : Nat := 1

/-- Modelled from the spec: the `Driver` status bit named by spec step 3
(`DriverSeen`), a distinct single bit. -/
def Driver : Nat := 2

/-- Modelled from the spec: the `DriverOk` status bit, a distinct single bit
(the spec's §6 notes it is "reused both mid-sequence and as the final live
bit" by this code). -/
def DriverOk : Nat := 4

/-- Modelled from the spec: the `FeaturesOk` status bit, a distinct single
bit. -/
def FeaturesOk : Nat := 8

/-- Modelled from the spec: the `Failed` status bit, a distinct single
bit. -/
def Failed : Nat := 128

/-- Modelled from the spec: `StatusField::features_ok` from the external
`virtio` module tests whether the `FeaturesOk` bit is set in a status
value ("If the FEATURES_OK bit is no longer set ..."). -/
def features_ok (x : Nat) : Bool := x &&& FeaturesOk != 0

end StatusField

/-- Modelled from the spec: the platform page size from the external `page`
module; 4096 as in the spec's §8 examples. -/
def PAGE_SIZE : Nat := 4096

/-- `virtio::MMIO_VIRTIO_START`, the MMIO region base: per the comment in
`setup_gpu_device`, address `0x1000_1000` is index 0. -/
def MMIO_VIRTIO_START : Nat := 0x10001000

/-- The `Device` handle stored in the registry (`gpu.rs` lines 190-195);
pointers become `Nat` addresses. -/
structure Device where
  queue : Nat
  dev : Nat
  idx : Nat
  ack_used_idx : Nat
deriving DecidableEq, Repr

/-- One observable action of `setup_gpu_device`: a volatile register read
(with the value the device returned), a volatile register write, or a call
to the page allocator `zalloc` (with the page count requested and the
address returned). -/
inductive Access where
  | rd (r : MmioOffsets) (v : Nat)
  | wr (r : MmioOffsets) (v : Nat)
  | alloc (pages : Nat) (addr : Nat)
deriving DecidableEq, Repr

/-- Whether an access is a page allocation. -/
def Access.isAlloc : Access → Bool
  | .alloc _ _ => true
  | _ => false

/-- The outcome of a completed (non-panicking) run of `setup_gpu_device`:
its boolean return value, the ordered trace of MMIO accesses and
allocations, and the `GPU_DEVICES` registry after the call. -/
structure GpuRun where
  result : Bool
  trace : List Access
  registry : Fin 8 → Option Device

/-- The write `GPU_DEVICES[idx] = Some(dev)` into the fixed 8-slot static
array: in bounds it updates the slot, out of bounds it is a Rust index
panic, modelled as `none`. -/
def registrySet (reg : Fin 8 → Option Device) (idx : Nat) (d : Device) :
    Option (Fin 8 → Option Device) :=
  if h : idx < 8 then some (Function.update reg ⟨idx, h⟩ (some d)) else none

/-- The page count computed at `gpu.rs` line 268:
`(size_of::<Queue>() + PAGE_SIZE - 1) / PAGE_SIZE`. -/
def num_pages (sz : Nat) : Nat := (sz + PAGE_SIZE - 1) / PAGE_SIZE

/-- The slot index derived at `gpu.rs` line 224:
`(ptr as usize - virtio::MMIO_VIRTIO_START) >> 12`. The `usize` subtraction
wraps modulo `2^64` (release-build semantics, overflow checks off), so an
address below the region base yields a huge out-of-range index that fails
the registry bounds check; a debug build would panic at the subtraction
itself — in either build mode no such address reaches an in-range registry
slot. -/
def device_idx (ptr : Nat) : Nat :=
  ((ptr + (2 ^ 64 - MMIO_VIRTIO_START)) % 2 ^ 64) >>> 12

/-- `setup_gpu_device` (`gpu.rs` lines 216-309), embedded as a pure function.
`ringSize` stands for the external constant `VIRTIO_RING_SIZE` and
`queueBytes` for `size_of::<Queue>()` (both from the external `virtio`
module). `ptr` is the device base address; `hostFeatures`, `statusReadBack`
and `qnmax` are the values the device returns for the three volatile reads
(HostFeatures, the Status re-read, QueueNumMax), and `allocAddr` is the
address `zalloc` returns. `gpuDevices` is the registry before the call.
Each `return` of the source becomes one branch carrying the accesses
performed up to that point, in source order. -/
def setup_gpu_device (ringSize queueBytes : Nat) (ptr : Nat)
    (hostFeatures statusReadBack qnmax allocAddr : Nat)
    (gpuDevices : Fin 8 → Option Device) : Option GpuRun :=
  let idx := device_idx ptr
  let status_bits1 := StatusField.Acknowledge
  let status_bits2 := status_bits1 ||| StatusField.DriverOk
  let status_bits3 := status_bits2 ||| StatusField.FeaturesOk
  if StatusField.features_ok statusReadBack = false then
    some { result := false
         , trace := [.wr .Status 0, .wr .Status status_bits1,
                     .wr .Status status_bits2,
                     .rd .HostFeatures hostFeatures,
                     .wr .GuestFeatures hostFeatures,
                     .wr .Status status_bits3,
                     .rd .Status statusReadBack,
                     .wr .Status StatusField.Failed]
         , registry := gpuDevices }
  else if ringSize > qnmax then
    some { result := false
         , trace := [.wr .Status 0, .wr .Status status_bits1,
                     .wr .Status status_bits2,
                     .rd .HostFeatures hostFeatures,
                     .wr .GuestFeatures hostFeatures,
                     .wr .Status status_bits3,
                     .rd .Status statusReadBack,
                     .rd .QueueNumMax qnmax,
                     .wr .QueueNum ringSize]
         , registry := gpuDevices }
  else
    let np := num_pages queueBytes
    let queue_pfn := allocAddr % 2 ^ 32
    let status_bits4 := status_bits3 ||| StatusField.DriverOk
    match registrySet gpuDevices idx ⟨allocAddr, ptr, 0, 0⟩ with
    | none => none
    | some reg2 =>
      some { result := true
           , trace := [.wr .Status 0, .wr .Status status_bits1,
                       .wr .Status status_bits2,
                       .rd .HostFeatures hostFeatures,
                       .wr .GuestFeatures hostFeatures,
                       .wr .Status status_bits3,
                       .rd .Status statusReadBack,
                       .rd .QueueNumMax qnmax,
                       .wr .QueueNum ringSize,
                       .wr .QueueSel 0,
                       .alloc np allocAddr,
                       .wr .GuestPageSize PAGE_SIZE,
                       .wr .QueuePfn (queue_pfn / PAGE_SIZE),
                       .wr .Status status_bits4]
           , registry := reg2 }

/-- The `CtrlType` wire-tag enumeration (`gpu.rs` lines 26-56), a `#[repr(u32)]`
enum grouped into 2D commands, cursor commands, success responses and error
responses. -/
inductive CtrlType where
  | CmdGetDisplayInfo
  | CmdResourceCreate2d
  | CmdResourceUref
  | CmdSetScanout
  | CmdResourceFlush
  | CmdTransferToHost2d
  | CmdResourceAttachBacking
  | CmdResourceDetachBacking
  | CmdGetCapsetInfo
  | CmdGetCapset
  | CmdGetEdid
  | CmdUpdateCursor
  | CmdMoveCursor
  | RespOkNoData
  | RespOkDisplayInfo
  | RespOkCapsetInfo
  | RespOkCapset
  | RespOkEdid
  | RespErrUnspec
  | RespErrOutOfMemory
  | RespErrInvalidScanoutId
  | RespErrInvalidResourceId
  | RespErrInvalidContextId
  | RespErrInvalidParameter
deriving DecidableEq, Repr, Fintype

namespace CtrlType

/-- The `u32` discriminant of each `CtrlType` variant: explicit values
`0x0100`, `0x0300`, `0x1100`, `0x1200` at the group heads, the rest
assigned by Rust's implicit increment. -/
def val32 : CtrlType → Nat
  | .CmdGetDisplayInfo => 0x0100
  | .CmdResourceCreate2d => 0x0101
  | .CmdResourceUref => 0x0102
  | .CmdSetScanout => 0x0103
  | .CmdResourceFlush => 0x0104
  | .CmdTransferToHost2d => 0x0105
  | .CmdResourceAttachBacking => 0x0106
  | .CmdResourceDetachBacking => 0x0107
  | .CmdGetCapsetInfo => 0x0108
  | .CmdGetCapset => 0x0109
  | .CmdGetEdid => 0x010A
  | .CmdUpdateCursor => 0x0300
  | .CmdMoveCursor => 0x0301
  | .RespOkNoData => 0x1100
  | .RespOkDisplayInfo => 0x1101
  | .RespOkCapsetInfo => 0x1102
  | .RespOkCapset => 0x1103
  | .RespOkEdid => 0x1104
  | .RespErrUnspec => 0x1200
  | .RespErrOutOfMemory => 0x1201
  | .RespErrInvalidScanoutId => 0x1202
  | .RespErrInvalidResourceId => 0x1203
  | .RespErrInvalidContextId => 0x1204
  | .RespErrInvalidParameter => 0x1205

/-- Membership in the source's `/* 2d commands */` group. -/
def is2dCommand : CtrlType → Bool
  | .CmdGetDisplayInfo | .CmdResourceCreate2d | .CmdResourceUref
  | .CmdSetScanout | .CmdResourceFlush | .CmdTransferToHost2d
  | .CmdResourceAttachBacking | .CmdResourceDetachBacking
  | .CmdGetCapsetInfo | .CmdGetCapset | .CmdGetEdid => true
  | _ => false

/-- Membership in the source's `/* cursor commands */` group. -/
def isCursorCommand : CtrlType → Bool
  | .CmdUpdateCursor | .CmdMoveCursor => true
  | _ => false

/-- Membership in the source's `/* success responses */` group. -/
def isSuccessResponse : CtrlType → Bool
  | .RespOkNoData | .RespOkDisplayInfo | .RespOkCapsetInfo
  | .RespOkCapset | .RespOkEdid => true
  | _ => false

/-- Membership in the source's `/* error responses */` group. -/
def isErrorResponse : CtrlType → Bool
  | .RespErrUnspec | .RespErrOutOfMemory | .RespErrInvalidScanoutId
  | .RespErrInvalidResourceId | .RespErrInvalidContextId
  | .RespErrInvalidParameter => true
  | _ => false

end CtrlType

/-- Whether a trace contains a page allocation. -/
def hasAlloc (t : List Access) : Bool := t.any (·.isAlloc)

/-- Whether every write to the Status register in a trace carries a value
with the `Failed` bit clear. -/
def noFailedStatusWrite (t : List Access) : Bool :=
  t.all fun a =>
    match a with
    | .wr .Status v => v &&& StatusField.Failed == 0
    | _ => true

/-- C6: the queue-region page count is the ceiling of the ring structure's
byte size over the page size: `num_pages sz` is the least `m` with
`sz ≤ m * PAGE_SIZE`; in particular `num_pages 4097 = 2` and
`num_pages 4096 = 1`, never 2. -/
theorem num_pages_is_ceil (sz m : Nat) :
    sz ≤ num_pages sz * PAGE_SIZE ∧
    (sz ≤ m * PAGE_SIZE → num_pages sz ≤ m) ∧
    num_pages 4097 = 2 ∧ num_pages 4096 = 1 := by
  refine ⟨?_, ?_, by decide, by decide⟩ <;>
    · unfold num_pages PAGE_SIZE
      omega

/-- Witness for `num_pages_is_ceil` at `sz = 4097`, `m = 2`. -/
theorem num_pages_is_ceil_witness : num_pages 4097 ≤ 2 ∧ num_pages 4097 = 2 :=
  ⟨(num_pages_is_ceil 4097 2).2.1 (by decide), (num_pages_is_ceil 4097 2).2.2.1⟩

/-- C8: the `CtrlType` discriminants occupy exactly the disjoint ranges
0x0100-0x010A (the eleven 2D commands), 0x0300-0x0301 (the two cursor
commands), 0x1100-0x1104 (the five success responses) and 0x1200-0x1205
(the six error responses); all 24 values are pairwise distinct, and
`RespErrInvalidResourceId = 0x1203` differs from
`RespErrInvalidScanoutId = 0x1202`. -/
theorem ctrlType_ranges_exact :
    ((Finset.univ.filter fun c => CtrlType.is2dCommand c = true).image
        CtrlType.val32 = Finset.Icc 0x0100 0x010A) ∧
    ((Finset.univ.filter fun c => CtrlType.isCursorCommand c = true).image
        CtrlType.val32 = Finset.Icc 0x0300 0x0301) ∧
    ((Finset.univ.filter fun c => CtrlType.isSuccessResponse c = true).image
        CtrlType.val32 = Finset.Icc 0x1100 0x1104) ∧
    ((Finset.univ.filter fun c => CtrlType.isErrorResponse c = true).image
        CtrlType.val32 = Finset.Icc 0x1200 0x1205) ∧
    (Finset.univ.filter fun c => CtrlType.is2dCommand c = true).card = 11 ∧
    (Finset.univ.filter fun c => CtrlType.isCursorCommand c = true).card = 2 ∧
    (Finset.univ.filter fun c => CtrlType.isSuccessResponse c = true).card = 5 ∧
    (Finset.univ.filter fun c => CtrlType.isErrorResponse c = true).card = 6 ∧
    (Finset.univ.image CtrlType.val32).card = 24 ∧
    CtrlType.RespErrInvalidResourceId.val32 = 0x1203 ∧
    CtrlType.RespErrInvalidScanoutId.val32 = 0x1202 ∧
    CtrlType.RespErrInvalidResourceId.val32 ≠
      CtrlType.RespErrInvalidScanoutId.val32 := by
  decide

/-- C1: every failed negotiation (FEATURES_OK cleared on the Status re-read,
or ring size above QueueNumMax) returns `false`, leaves the registry exactly
as it was, and performs no page allocation. -/
theorem setup_failure_leaves_registry_and_allocates_nothing
    (ringSize queueBytes ptr hostFeatures statusReadBack qnmax allocAddr : Nat)
    (gpuDevices : Fin 8 → Option Device)
    (h : StatusField.features_ok statusReadBack = false ∨ qnmax < ringSize) :
    ∃ out, setup_gpu_device ringSize queueBytes ptr hostFeatures statusReadBack
        qnmax allocAddr gpuDevices = some out ∧
      out.result = false ∧ out.registry = gpuDevices ∧
      hasAlloc out.trace = false := by
  simp only [setup_gpu_device]
  by_cases hf : StatusField.features_ok statusReadBack = false
  · rw [if_pos hf]
    exact ⟨_, rfl, rfl, rfl, rfl⟩
  · rcases h with h | h
    · exact absurd h hf
    · rw [if_neg hf, if_pos h]
      exact ⟨_, rfl, rfl, rfl, rfl⟩

/-- Witness for `setup_failure_leaves_registry_and_allocates_nothing`:
a concrete feature-rejection run (Status re-read = 0). -/
theorem setup_failure_leaves_registry_and_allocates_nothing_witness :
    ∃ out, setup_gpu_device 128 4096 0x10001000 0 0 0 0 (fun _ => none)
        = some out ∧
      out.result = false ∧ out.registry = (fun _ => none) ∧
      hasAlloc out.trace = false :=
  setup_failure_leaves_registry_and_allocates_nothing
    128 4096 0x10001000 0 0 0 0 (fun _ => none) (Or.inl (by decide))

/-- C9: for every base address whose derived slot index
`(ptr - MMIO_VIRTIO_START) >> 12` (the wrapping `usize` subtraction of
`device_idx`) is below 8, the run completes without a panic: the registry
write is in bounds and every failure is an ordinary boolean return. An
address below the region base derives a wrapped index of about `2^52`, so
it never satisfies this precondition. -/
theorem setup_total_when_index_in_range
    (ringSize queueBytes ptr hostFeatures statusReadBack qnmax allocAddr : Nat)
    (gpuDevices : Fin 8 → Option Device)
    (h : device_idx ptr < 8) :
    (setup_gpu_device ringSize queueBytes ptr hostFeatures statusReadBack
        qnmax allocAddr gpuDevices).isSome = true := by
  by_cases hf : StatusField.features_ok statusReadBack = false
  · simp only [setup_gpu_device]
    rw [if_pos hf]
    rfl
  · by_cases hq : ringSize > qnmax
    · simp only [setup_gpu_device]
      rw [if_neg hf, if_pos hq]
      rfl
    · have hreg : registrySet gpuDevices (device_idx ptr)
          ⟨allocAddr, ptr, 0, 0⟩ = some (Function.update gpuDevices
            ⟨device_idx ptr, h⟩
            (some ⟨allocAddr, ptr, 0, 0⟩)) := dif_pos h
      simp only [setup_gpu_device]
      rw [if_neg hf, if_neg hq]
      simp [hreg]

/-- Witness for `setup_total_when_index_in_range`: base `0x1000_8000`
(slot 7), a successful run. -/
theorem setup_total_when_index_in_range_witness :
    (setup_gpu_device 128 4096 0x10008000 5 8 256 4096
        (fun _ => none)).isSome = true :=
  setup_total_when_index_in_range 128 4096 0x10008000 5 8 256 4096
    (fun _ => none) (by decide)

/-- C2 counterexample: a queue-size-overflow failure (QueueNumMax = 0 below
ring size 128, features accepted) returns `false` yet no Status write in the
whole run carries the `Failed` bit — the claim that every negotiation
failure writes the Failed status bit is false on this input. -/
theorem queue_overflow_never_writes_failed :
    ∃ out, setup_gpu_device 128 4096 0x10002000 5 8 0 0x80000000
        (fun _ => none) = some out ∧
      out.result = false ∧
      noFailedStatusWrite out.trace = true ∧
      Access.wr MmioOffsets.Status StatusField.Failed ∉ out.trace :=
  ⟨_, rfl, rfl, by decide, by decide⟩

/-- C2 (amended): on feature rejection the run's final register access
writes the `Failed` value to Status and the result is `false`; on queue
size overflow the run returns `false` with no Status write carrying the
`Failed` bit. -/
theorem failure_status_bit_writes
    (ringSize queueBytes ptr hostFeatures statusReadBack qnmax allocAddr : Nat)
    (gpuDevices : Fin 8 → Option Device) :
    (StatusField.features_ok statusReadBack = false →
      ∃ out, setup_gpu_device ringSize queueBytes ptr hostFeatures
          statusReadBack qnmax allocAddr gpuDevices = some out ∧
        out.result = false ∧
        out.trace.getLast? = some (.wr .Status StatusField.Failed)) ∧
    (StatusField.features_ok statusReadBack = true → qnmax < ringSize →
      ∃ out, setup_gpu_device ringSize queueBytes ptr hostFeatures
          statusReadBack qnmax allocAddr gpuDevices = some out ∧
        out.result = false ∧ noFailedStatusWrite out.trace = true) := by
  constructor
  · intro hf
    simp only [setup_gpu_device]
    rw [if_pos hf]
    exact ⟨_, rfl, rfl, rfl⟩
  · intro hf hq
    simp only [setup_gpu_device]
    rw [if_neg (by simp [hf]), if_pos hq]
    exact ⟨_, rfl, rfl, rfl⟩

/-- Witness for `failure_status_bit_writes`: both failure kinds at concrete
inputs (Status re-read 0 for rejection; re-read 8 with QueueNumMax 0 for
overflow). -/
theorem failure_status_bit_writes_witness :
    (∃ out, setup_gpu_device 128 4096 0x10001000 3 0 0 0 (fun _ => none)
        = some out ∧
      out.result = false ∧
      out.trace.getLast? = some (.wr .Status StatusField.Failed)) ∧
    (∃ out, setup_gpu_device 128 4096 0x10001000 3 8 0 0 (fun _ => none)
        = some out ∧
      out.result = false ∧ noFailedStatusWrite out.trace = true) :=
  ⟨(failure_status_bit_writes 128 4096 0x10001000 3 0 0 0 (fun _ => none)).1
      (by decide),
   (failure_status_bit_writes 128 4096 0x10001000 3 8 0 0 (fun _ => none)).2
      (by decide) (by decide)⟩

/-- Branch equation: a feature-rejection run (`gpu.rs` lines 248-252). -/
theorem setup_featfail_eq
    (ringSize queueBytes ptr hostFeatures statusReadBack qnmax allocAddr : Nat)
    (gpuDevices : Fin 8 → Option Device)
    (hf : StatusField.features_ok statusReadBack = false) :
    setup_gpu_device ringSize queueBytes ptr hostFeatures statusReadBack
        qnmax allocAddr gpuDevices =
      some { result := false
           , trace := [.wr .Status 0, .wr .Status StatusField.Acknowledge,
                       .wr .Status (StatusField.Acknowledge |||
                         StatusField.DriverOk),
                       .rd .HostFeatures hostFeatures,
                       .wr .GuestFeatures hostFeatures,
                       .wr .Status (StatusField.Acknowledge |||
                         StatusField.DriverOk ||| StatusField.FeaturesOk),
                       .rd .Status statusReadBack,
                       .wr .Status StatusField.Failed]
           , registry := gpuDevices } := by
  simp only [setup_gpu_device]
  rw [if_pos hf]

/-- Branch equation: a queue-size-overflow run (`gpu.rs` lines 257-262). -/
theorem setup_qfail_eq
    (ringSize queueBytes ptr hostFeatures statusReadBack qnmax allocAddr : Nat)
    (gpuDevices : Fin 8 → Option Device)
    (hf : StatusField.features_ok statusReadBack = true)
    (hq : qnmax < ringSize) :
    setup_gpu_device ringSize queueBytes ptr hostFeatures statusReadBack
        qnmax allocAddr gpuDevices =
      some { result := false
           , trace := [.wr .Status 0, .wr .Status StatusField.Acknowledge,
                       .wr .Status (StatusField.Acknowledge |||
                         StatusField.DriverOk),
                       .rd .HostFeatures hostFeatures,
                       .wr .GuestFeatures hostFeatures,
                       .wr .Status (StatusField.Acknowledge |||
                         StatusField.DriverOk ||| StatusField.FeaturesOk),
                       .rd .Status statusReadBack,
                       .rd .QueueNumMax qnmax,
                       .wr .QueueNum ringSize]
           , registry := gpuDevices } := by
  simp only [setup_gpu_device]
  rw [if_neg (by simp [hf]), if_pos hq]

/-- Branch equation: a successful run (`gpu.rs` lines 263-308) with an
in-range slot index. -/
theorem setup_success_eq
    (ringSize queueBytes ptr hostFeatures statusReadBack qnmax allocAddr : Nat)
    (gpuDevices : Fin 8 → Option Device)
    (hf : StatusField.features_ok statusReadBack = true)
    (hq : ringSize ≤ qnmax)
    (hidx : device_idx ptr < 8) :
    setup_gpu_device ringSize queueBytes ptr hostFeatures statusReadBack
        qnmax allocAddr gpuDevices =
      some { result := true
           , trace := [.wr .Status 0, .wr .Status StatusField.Acknowledge,
                       .wr .Status (StatusField.Acknowledge |||
                         StatusField.DriverOk),
                       .rd .HostFeatures hostFeatures,
                       .wr .GuestFeatures hostFeatures,
                       .wr .Status (StatusField.Acknowledge |||
                         StatusField.DriverOk ||| StatusField.FeaturesOk),
                       .rd .Status statusReadBack,
                       .rd .QueueNumMax qnmax,
                       .wr .QueueNum ringSize,
                       .wr .QueueSel 0,
                       .alloc (num_pages queueBytes) allocAddr,
                       .wr .GuestPageSize PAGE_SIZE,
                       .wr .QueuePfn (allocAddr % 2 ^ 32 / PAGE_SIZE),
                       .wr .Status (StatusField.Acknowledge |||
                         StatusField.DriverOk ||| StatusField.FeaturesOk |||
                         StatusField.DriverOk)]
           , registry := Function.update gpuDevices
               ⟨device_idx ptr, hidx⟩
               (some ⟨allocAddr, ptr, 0, 0⟩) } := by
  have hreg : registrySet gpuDevices (device_idx ptr)
      ⟨allocAddr, ptr, 0, 0⟩ = some (Function.update gpuDevices
        ⟨device_idx ptr, hidx⟩
        (some ⟨allocAddr, ptr, 0, 0⟩)) := dif_pos hidx
  simp only [setup_gpu_device]
  rw [if_neg (by simp [hf]), if_neg (by omega)]
  simp [hreg]

/-- Branch equation: a run whose derived slot index is out of range panics
on the registry write (`GPU_DEVICES[idx]`), modelled as `none`. -/
theorem setup_oob_eq
    (ringSize queueBytes ptr hostFeatures statusReadBack qnmax allocAddr : Nat)
    (gpuDevices : Fin 8 → Option Device)
    (hf : StatusField.features_ok statusReadBack = true)
    (hq : ringSize ≤ qnmax)
    (hidx : ¬ device_idx ptr < 8) :
    setup_gpu_device ringSize queueBytes ptr hostFeatures statusReadBack
        qnmax allocAddr gpuDevices = none := by
  have hreg : registrySet gpuDevices (device_idx ptr)
      ⟨allocAddr, ptr, 0, 0⟩ = none := dif_neg hidx
  simp only [setup_gpu_device]
  rw [if_neg (by simp [hf]), if_neg (by omega)]
  simp [hreg]

/-- C3 counterexample: a queue-size-overflow run (QueueNumMax = 64 below
ring size 128) does write QueueNum with the ring size before failing, and
never writes QueueSel at all — so "QueueSel is written before QueueNumMax is
read" and "returns failure without writing QueueNum" are both false on this
input. -/
theorem queue_overflow_still_writes_queue_num :
    ∃ out, setup_gpu_device 128 4096 0x10004000 5 8 64 0x80000000
        (fun _ => none) = some out ∧
      out.result = false ∧
      Access.wr MmioOffsets.QueueNum 128 ∈ out.trace ∧
      Access.wr MmioOffsets.QueueSel 0 ∉ out.trace :=
  ⟨_, rfl, rfl, by decide, by decide⟩

/-- C3 (amended): QueueNumMax is read with no prior QueueSel write, and
QueueNum is written with the ring size unconditionally right after that
read, before the size comparison; on overflow the run fails with QueueNum
already written and QueueSel never written, while on the successful path
QueueSel = 0 is written only after the comparison (trace positions
7 = QueueNumMax read, 8 = QueueNum write, 9 = QueueSel write). -/
theorem queue_config_access_order
    (ringSize queueBytes ptr hostFeatures statusReadBack qnmax allocAddr : Nat)
    (gpuDevices : Fin 8 → Option Device) :
    (StatusField.features_ok statusReadBack = true → qnmax < ringSize →
      ∃ out, setup_gpu_device ringSize queueBytes ptr hostFeatures
          statusReadBack qnmax allocAddr gpuDevices = some out ∧
        out.result = false ∧
        out.trace[7]? = some (.rd .QueueNumMax qnmax) ∧
        out.trace[8]? = some (.wr .QueueNum ringSize) ∧
        Access.wr MmioOffsets.QueueSel 0 ∉ out.trace) ∧
    (StatusField.features_ok statusReadBack = true → ringSize ≤ qnmax →
      device_idx ptr < 8 →
      ∃ out, setup_gpu_device ringSize queueBytes ptr hostFeatures
          statusReadBack qnmax allocAddr gpuDevices = some out ∧
        out.trace[7]? = some (.rd .QueueNumMax qnmax) ∧
        out.trace[8]? = some (.wr .QueueNum ringSize) ∧
        out.trace[9]? = some (.wr .QueueSel 0)) := by
  constructor
  · intro hf hq
    refine ⟨_, setup_qfail_eq ringSize queueBytes ptr hostFeatures
      statusReadBack qnmax allocAddr gpuDevices hf hq, rfl, rfl, rfl, ?_⟩
    simp
  · intro hf hq hidx
    exact ⟨_, setup_success_eq ringSize queueBytes ptr hostFeatures
      statusReadBack qnmax allocAddr gpuDevices hf hq hidx, rfl, rfl, rfl⟩

/-- Witness for `queue_config_access_order`: overflow at QueueNumMax = 16
and success at QueueNumMax = 256, ring size 128. -/
theorem queue_config_access_order_witness :
    (∃ out, setup_gpu_device 128 4096 0x10006000 5 8 16 4096
        (fun _ => none) = some out ∧
      out.result = false ∧
      out.trace[7]? = some (.rd .QueueNumMax 16) ∧
      out.trace[8]? = some (.wr .QueueNum 128) ∧
      Access.wr MmioOffsets.QueueSel 0 ∉ out.trace) ∧
    (∃ out, setup_gpu_device 128 4096 0x10006000 5 8 256 4096
        (fun _ => none) = some out ∧
      out.trace[7]? = some (.rd .QueueNumMax 256) ∧
      out.trace[8]? = some (.wr .QueueNum 128) ∧
      out.trace[9]? = some (.wr .QueueSel 0)) :=
  ⟨(queue_config_access_order 128 4096 0x10006000 5 8 16 4096
      (fun _ => none)).1 (by decide) (by decide),
   (queue_config_access_order 128 4096 0x10006000 5 8 256 4096
      (fun _ => none)).2 (by decide) (by decide) (by decide)⟩

/-- C4: in every completed run, whatever value the HostFeatures read
returns is written unmodified to GuestFeatures (trace positions 3 and 4),
and the following Status write ORs the FEATURES_OK bit into the previously
accumulated status bits (positions 2 and 5). -/
theorem host_features_mirrored
    (ringSize queueBytes ptr hostFeatures statusReadBack qnmax allocAddr : Nat)
    (gpuDevices : Fin 8 → Option Device) (out : GpuRun)
    (h : setup_gpu_device ringSize queueBytes ptr hostFeatures statusReadBack
        qnmax allocAddr gpuDevices = some out) :
    out.trace[3]? = some (.rd .HostFeatures hostFeatures) ∧
    out.trace[4]? = some (.wr .GuestFeatures hostFeatures) ∧
    ∃ prev, out.trace[2]? = some (.wr .Status prev) ∧
      out.trace[5]? = some (.wr .Status (prev ||| StatusField.FeaturesOk)) := by
  by_cases hf : StatusField.features_ok statusReadBack = false
  · rw [setup_featfail_eq ringSize queueBytes ptr hostFeatures statusReadBack
      qnmax allocAddr gpuDevices hf] at h
    injection h with h
    subst h
    exact ⟨rfl, rfl, _, rfl, rfl⟩
  · simp only [Bool.not_eq_false] at hf
    by_cases hq : qnmax < ringSize
    · rw [setup_qfail_eq ringSize queueBytes ptr hostFeatures statusReadBack
        qnmax allocAddr gpuDevices hf hq] at h
      injection h with h
      subst h
      exact ⟨rfl, rfl, _, rfl, rfl⟩
    · by_cases hidx : device_idx ptr < 8
      · rw [setup_success_eq ringSize queueBytes ptr hostFeatures
          statusReadBack qnmax allocAddr gpuDevices hf (by omega) hidx] at h
        injection h with h
        subst h
        exact ⟨rfl, rfl, _, rfl, rfl⟩
      · rw [setup_oob_eq ringSize queueBytes ptr hostFeatures statusReadBack
          qnmax allocAddr gpuDevices hf (by omega) hidx] at h
        exact Option.noConfusion h

/-- Witness for `host_features_mirrored`: HostFeatures = 5 at a concrete
successful run. -/
theorem host_features_mirrored_witness :
    ∃ out, setup_gpu_device 128 4096 0x10001000 5 8 256 4096
        (fun _ => none) = some out ∧
      (out.trace[3]? = some (.rd .HostFeatures 5) ∧
       out.trace[4]? = some (.wr .GuestFeatures 5) ∧
       ∃ prev, out.trace[2]? = some (.wr .Status prev) ∧
         out.trace[5]? = some (.wr .Status (prev ||| StatusField.FeaturesOk))) :=
  ⟨_, rfl, host_features_mirrored 128 4096 0x10001000 5 8 256 4096
    (fun _ => none) _ rfl⟩

/-- C5 counterexample: a successful run whose allocated base address is
exactly 4 GiB (2^32) publishes 0 to QueuePfn — not the base address divided
by the page size (which is 2^20) — because the pointer is truncated to
32 bits before the division. -/
theorem queue_pfn_not_address_div_at_4gib :
    ∃ out, setup_gpu_device 128 4096 0x10003000 5 8 200 4294967296
        (fun _ => none) = some out ∧
      out.result = true ∧
      Access.wr MmioOffsets.QueuePfn (4294967296 / PAGE_SIZE) ∉ out.trace ∧
      Access.wr MmioOffsets.QueuePfn 0 ∈ out.trace :=
  ⟨_, rfl, rfl, by decide, by decide⟩

/-- C5 (amended): on the successful path GuestPageSize is written with the
platform page size and QueuePfn with `(base mod 2^32) / page size`; this is
the region's physical frame number whenever the base address is below
2^32. -/
theorem guest_page_size_and_pfn_writes
    (ringSize queueBytes ptr hostFeatures statusReadBack qnmax allocAddr : Nat)
    (gpuDevices : Fin 8 → Option Device)
    (hf : StatusField.features_ok statusReadBack = true)
    (hq : ringSize ≤ qnmax)
    (hidx : device_idx ptr < 8) :
    ∃ out, setup_gpu_device ringSize queueBytes ptr hostFeatures
        statusReadBack qnmax allocAddr gpuDevices = some out ∧
      out.result = true ∧
      Access.wr MmioOffsets.GuestPageSize PAGE_SIZE ∈ out.trace ∧
      Access.wr MmioOffsets.QueuePfn (allocAddr % 2 ^ 32 / PAGE_SIZE)
        ∈ out.trace ∧
      (allocAddr < 2 ^ 32 →
        allocAddr % 2 ^ 32 / PAGE_SIZE = allocAddr / PAGE_SIZE) := by
  refine ⟨_, setup_success_eq ringSize queueBytes ptr hostFeatures
    statusReadBack qnmax allocAddr gpuDevices hf hq hidx,
    rfl, by simp, by simp, fun hlt => by rw [Nat.mod_eq_of_lt hlt]⟩

/-- Witness for `guest_page_size_and_pfn_writes`: allocated base 8192, page
size 4096, PFN 2. -/
theorem guest_page_size_and_pfn_writes_witness :
    ∃ out, setup_gpu_device 128 4096 0x10005000 5 8 256 8192
        (fun _ => none) = some out ∧
      out.result = true ∧
      Access.wr MmioOffsets.GuestPageSize PAGE_SIZE ∈ out.trace ∧
      Access.wr MmioOffsets.QueuePfn (8192 % 2 ^ 32 / PAGE_SIZE)
        ∈ out.trace ∧
      (8192 < 2 ^ 32 → 8192 % 2 ^ 32 / PAGE_SIZE = 8192 / PAGE_SIZE) :=
  guest_page_size_and_pfn_writes 128 4096 0x10005000 5 8 256 8192
    (fun _ => none) (by decide) (by decide) (by decide)

/-- C7: the step-3 Status write ORs the `DriverOk` bit — not the distinct
`Driver` bit the claim (and the source comment "Set the DRIVER status bit")
names — so the final Live-step Status write repeats exactly the value
already written at the FEATURES_OK step and adds no new bit. Evaluated at a
concrete successful run. -/
theorem driver_ok_bit_reused_in_step3 :
    StatusField.Driver ≠ StatusField.DriverOk ∧
    ∃ out, setup_gpu_device 128 4096 0x10001000 0 8 128 0x80000000
        (fun _ => none) = some out ∧
      out.trace[2]? = some (.wr .Status
        (StatusField.Acknowledge ||| StatusField.DriverOk)) ∧
      out.trace[2]? ≠ some (.wr .Status
        (StatusField.Acknowledge ||| StatusField.Driver)) ∧
      out.trace[5]? = some (.wr .Status 13) ∧
      out.trace[13]? = some (.wr .Status 13) :=
  ⟨by decide, _, rfl, rfl, by decide, by decide, by decide⟩

/-- C10: the value published to QueuePfn is the allocated pointer truncated
to 32 bits, then divided by the page size: the QueuePfn write of every
successful run carries `allocAddr % 2^32 / PAGE_SIZE` (trace position 12),
which equals the true physical frame number `allocAddr / PAGE_SIZE` exactly
when `allocAddr < 2^32` and differs from it for every allocation at or
above 4 GiB. -/
theorem queue_pfn_truncated_before_division
    (ringSize queueBytes ptr hostFeatures statusReadBack qnmax allocAddr : Nat)
    (gpuDevices : Fin 8 → Option Device)
    (hf : StatusField.features_ok statusReadBack = true)
    (hq : ringSize ≤ qnmax)
    (hidx : device_idx ptr < 8) :
    ∃ out, setup_gpu_device ringSize queueBytes ptr hostFeatures
        statusReadBack qnmax allocAddr gpuDevices = some out ∧
      out.trace[12]? = some (.wr .QueuePfn (allocAddr % 2 ^ 32 / PAGE_SIZE)) ∧
      (allocAddr < 2 ^ 32 →
        allocAddr % 2 ^ 32 / PAGE_SIZE = allocAddr / PAGE_SIZE) ∧
      (2 ^ 32 ≤ allocAddr →
        allocAddr % 2 ^ 32 / PAGE_SIZE ≠ allocAddr / PAGE_SIZE) := by
  refine ⟨_, setup_success_eq ringSize queueBytes ptr hostFeatures
    statusReadBack qnmax allocAddr gpuDevices hf hq hidx,
    rfl, fun hlt => by rw [Nat.mod_eq_of_lt hlt], fun hge => ?_⟩
  have h32 : (2 : ℕ) ^ 32 = 4294967296 := by norm_num
  simp only [PAGE_SIZE, h32] at hge ⊢
  omega

/-- Witness for `queue_pfn_truncated_before_division`: allocated base
`2^32 + 4096`; the register receives 1 while the true frame number is
2^20 + 1. -/
theorem queue_pfn_truncated_before_division_witness :
    ∃ out, setup_gpu_device 128 4096 0x10007000 5 8 256 4294971392
        (fun _ => none) = some out ∧
      out.trace[12]? = some (.wr .QueuePfn (4294971392 % 2 ^ 32 / PAGE_SIZE)) ∧
      (4294971392 < 2 ^ 32 →
        4294971392 % 2 ^ 32 / PAGE_SIZE = 4294971392 / PAGE_SIZE) ∧
      (2 ^ 32 ≤ 4294971392 →
        4294971392 % 2 ^ 32 / PAGE_SIZE ≠ 4294971392 / PAGE_SIZE) :=
  queue_pfn_truncated_before_division 128 4096 0x10007000 5 8 256 4294971392
    (fun _ => none) (by decide) (by decide) (by decide)
